import Mathlib

/-!
Verification of the filter-and-aggregate pipeline of
`Armed-Conflicts-in-Israel-and-Palestine-2016-2024` (src/main.py).

The dashboard loads a table of incident rows, filters it by country,
year range, disorder type and event type, and computes summary
statistics and grouped aggregates.  Tables are embedded as lists of
rows; pandas boolean-mask filtering becomes `List.filter`, `groupby`
aggregation becomes a map over the deduplicated keys, and the float
division of `average_events_per_year` becomes division in `Rat`.
-/

/-- One incident record (one row of the spreadsheet).  Only the columns
the filtering and statistics logic touches are embedded. -/
structure Row where
  country : String
  year : Int
  disorder_type : String
  event_type : String
  fatalities : Int
  civilian_fatalities : Int
deriving DecidableEq

/-- Embedding of `src/main.py` lines 47-50: the country filter.
`"Israel and Palestine"` keeps rows whose `country` is in the two-element
set (pandas `.isin(["Palestine", "Israel"])`); any other selection keeps
exact matches. -/
def countryFilter (sel : String) (df : List Row) : List Row :=
  if sel == "Israel and Palestine" then
    df.filter (fun r => ["Palestine", "Israel"].contains r.country)
  else
    df.filter (fun r => r.country == sel)

/-- Embedding of `src/main.py` line 55: the year-range filter
`df[(df.year >= lo) & (df.year <= hi)]`. -/
def yearFilter (lo hi : Int) (df : List Row) : List Row :=
  df.filter (fun r => decide (lo ≤ r.year) && decide (r.year ≤ hi))

/-- Embedding of `src/main.py` line 61: the combined disorder-type and
event-type membership mask
`df[df.disorder_type.isin(ds) & df.event_type.isin(es)]`. -/
def typeFilter (ds es : List String) (df : List Row) : List Row :=
  df.filter (fun r => ds.contains r.disorder_type && es.contains r.event_type)

/-- The full filter chain exactly as `main` applies it (lines 47-61):
country, then year range, then the combined type mask. -/
def filterAll (sel : String) (lo hi : Int) (ds es : List String)
    (df : List Row) : List Row :=
  typeFilter ds es (yearFilter lo hi (countryFilter sel df))

/-- The per-row boolean test of the country filter, as a predicate. -/
def countryPred (sel : String) (r : Row) : Bool :=
  if sel == "Israel and Palestine" then
    ["Palestine", "Israel"].contains r.country
  else
    r.country == sel

/-- The per-row boolean test of the year-range filter. -/
def yearPred (lo hi : Int) (r : Row) : Bool :=
  decide (lo ≤ r.year) && decide (r.year ≤ hi)

/-- The conjunction of all four active per-row predicates. -/
def activePred (sel : String) (lo hi : Int) (ds es : List String)
    (r : Row) : Bool :=
  countryPred sel r && yearPred lo hi r &&
    ds.contains r.disorder_type && es.contains r.event_type

/-- Sequential application of a list of per-row filters, leftmost first. -/
def filterSeq (ps : List (Row → Bool)) (df : List Row) : List Row :=
  ps.foldl (fun acc p => acc.filter p) df

lemma countryFilter_eq_filter (sel : String) (df : List Row) :
    countryFilter sel df = df.filter (countryPred sel) := by
  unfold countryFilter countryPred
  cases h : sel == "Israel and Palestine" <;> simp [h]

lemma yearFilter_eq_filter (lo hi : Int) (df : List Row) :
    yearFilter lo hi df = df.filter (yearPred lo hi) := rfl

lemma mem_countryFilter_both (df : List Row) (r : Row) :
    r ∈ countryFilter "Israel and Palestine" df ↔
      r ∈ df ∧ (r.country = "Israel" ∨ r.country = "Palestine") := by
  simp only [countryFilter]
  rw [if_pos (by rfl)]
  simp [List.mem_filter, or_comm]

lemma mem_countryFilter_exact (sel : String) (h : ¬ sel = "Israel and Palestine")
    (df : List Row) (r : Row) :
    r ∈ countryFilter sel df ↔ r ∈ df ∧ r.country = sel := by
  simp only [countryFilter]
  rw [if_neg (by simpa using h)]
  simp [List.mem_filter]

/-- Disjoint boolean tests split a filter into a permutation of the two
separate filters. -/
lemma filter_or_perm {α : Type} (p q : α → Bool) (l : List α)
    (hd : ∀ a, ¬(p a = true ∧ q a = true)) :
    (l.filter (fun a => p a || q a)).Perm (l.filter p ++ l.filter q) := by
  induction l with
  | nil => simp
  | cons a l ih =>
    cases hp : p a <;> cases hq : q a
    · simpa [List.filter_cons, hp, hq] using ih
    · simp only [List.filter_cons, hp, hq, Bool.false_or]
      exact (ih.cons a).trans List.perm_middle.symm
    · simpa [List.filter_cons, hp, hq] using ih.cons a
    · exact absurd ⟨hp, hq⟩ (hd a)

/-- Claim C3: for every valid year range `(lo, hi)` with `lo ≤ hi`, the
year-filtered table keeps exactly the rows of the input whose year lies
in the inclusive interval `[lo, hi]`. -/
theorem yearFilter_inclusive_bounds (lo hi : Int) (h : lo ≤ hi)
    (df : List Row) (r : Row) :
    r ∈ yearFilter lo hi df ↔ r ∈ df ∧ lo ≤ r.year ∧ r.year ≤ hi := by
  simp [yearFilter, List.mem_filter]

/-- Sample rows used to instantiate the proved properties. -/
def rowI : Row :=
  { country := "Israel", year := 2020, disorder_type := "Political violence",
    event_type := "Riots", fatalities := 2, civilian_fatalities := 1 }

/-- A second sample row. -/
def rowP : Row :=
  { country := "Palestine", year := 2021, disorder_type := "Demonstrations",
    event_type := "Protests", fatalities := 0, civilian_fatalities := 0 }

/-- Claim C3, witness: the year filter on a concrete two-row table with
the range (2020, 2021) retains the 2020 row. -/
theorem yearFilter_inclusive_bounds_witness :
    (2020 : Int) ≤ 2021 ∧
      (rowI ∈ yearFilter 2020 2021 [rowI, rowP] ↔
        rowI ∈ [rowI, rowP] ∧ 2020 ≤ rowI.year ∧ rowI.year ≤ 2021) :=
  ⟨by decide, yearFilter_inclusive_bounds 2020 2021 (by decide) [rowI, rowP] rowI⟩

/-- Claim C4: filtering by the combined selection keeps exactly the rows
whose country is Israel or Palestine, and it is a duplicate-free union of
the two single-country filters: a permutation of their concatenation,
whose two halves are disjoint. -/
theorem countryFilter_both_union (df : List Row) :
    (∀ r, r ∈ countryFilter "Israel and Palestine" df ↔
        r ∈ df ∧ (r.country = "Israel" ∨ r.country = "Palestine")) ∧
    (countryFilter "Israel and Palestine" df).Perm
      (countryFilter "Israel" df ++ countryFilter "Palestine" df) ∧
    (∀ r, r ∈ countryFilter "Israel" df → r ∉ countryFilter "Palestine" df) := by
  refine ⟨mem_countryFilter_both df, ?_, ?_⟩
  · have h1 : countryFilter "Israel and Palestine" df =
        df.filter (fun r => (r.country == "Palestine") || (r.country == "Israel")) := by
      simp only [countryFilter]
      rw [if_pos (by rfl)]
      refine List.filter_congr ?_
      intro r _
      simp [List.contains_cons, Bool.beq_eq_decide_eq]
    have h2 : countryFilter "Israel" df = df.filter (fun r => r.country == "Israel") := by
      simp only [countryFilter]
      rw [if_neg (by decide)]
    have h3 : countryFilter "Palestine" df = df.filter (fun r => r.country == "Palestine") := by
      simp only [countryFilter]
      rw [if_neg (by decide)]
    rw [h1, h2, h3]
    refine (filter_or_perm _ _ df ?_).trans List.perm_append_comm
    intro r hr
    have hp : r.country = "Palestine" := by simpa using hr.1
    have hi : r.country = "Israel" := by simpa using hr.2
    rw [hp] at hi
    exact absurd hi (by decide)
  · intro r hI hP
    have h1 : r.country = "Israel" :=
      ((mem_countryFilter_exact "Israel" (by decide) df r).mp hI).2
    have h2 : r.country = "Palestine" :=
      ((mem_countryFilter_exact "Palestine" (by decide) df r).mp hP).2
    rw [h1] at h2
    exact absurd h2 (by decide)

/-- Claim C4, witness: the combined-selection property applied to a
concrete two-row table, with the disjointness hypothesis discharged at
the sample rows. -/
theorem countryFilter_both_union_witness :
    rowI ∈ countryFilter "Israel" [rowI, rowP] ∧
      rowI ∉ countryFilter "Palestine" [rowI, rowP] :=
  ⟨by decide, (countryFilter_both_union [rowI, rowP]).2.2 rowI (by decide)⟩

lemma filterSeq_eq_filter_all (ps : List (Row → Bool)) (df : List Row) :
    filterSeq ps df = df.filter (fun r => ps.all (fun p => p r)) := by
  induction ps generalizing df with
  | nil => simp [filterSeq]
  | cons p ps ih =>
    have h1 : filterSeq (p :: ps) df = filterSeq ps (df.filter p) := rfl
    rw [h1, ih, List.filter_filter]
    refine List.filter_congr ?_
    intro r _
    simp [List.all_cons, Bool.and_comm]

lemma perm_all_eq {ps qs : List (Row → Bool)} (h : ps.Perm qs) (r : Row) :
    ps.all (fun p => p r) = qs.all (fun p => p r) := by
  induction h with
  | nil => rfl
  | cons p _ ih => simp [List.all_cons, ih]
  | swap p q l => simp [List.all_cons, Bool.and_left_comm]
  | trans _ _ ih1 ih2 => rw [ih1, ih2]

/-- Claim C1: the four filters form an unordered conjunction of pure
per-row predicates: running the per-row filters sequentially in any
order yields the rows satisfying all four predicates simultaneously, and
the chain exactly as `main` applies it (country, then year, then the
combined type mask) computes the same. -/
theorem filters_unordered_conjunction (sel : String) (lo hi : Int)
    (ds es : List String) (df : List Row) (ps : List (Row → Bool))
    (hperm : ps.Perm [countryPred sel, yearPred lo hi,
      fun r => ds.contains r.disorder_type, fun r => es.contains r.event_type]) :
    filterSeq ps df = df.filter (activePred sel lo hi ds es) ∧
    filterAll sel lo hi ds es df = df.filter (activePred sel lo hi ds es) := by
  constructor
  · rw [filterSeq_eq_filter_all]
    refine List.filter_congr ?_
    intro r _
    rw [perm_all_eq hperm r]
    simp [List.all_cons, activePred, Bool.and_assoc]
  · unfold filterAll typeFilter
    rw [yearFilter_eq_filter, countryFilter_eq_filter, List.filter_filter,
      List.filter_filter]
    refine List.filter_congr ?_
    intro r _
    simp [activePred, Bool.and_assoc, Bool.and_comm, Bool.and_left_comm]

/-- Claim C1, witness: on a concrete two-row table, running the four
predicates in reversed order equals the simultaneous-conjunction filter,
as does the chain in the order of the source. -/
theorem filters_unordered_conjunction_witness :
    filterSeq ([countryPred "Israel and Palestine", yearPred 2016 2024,
        fun r => ["Political violence"].contains r.disorder_type,
        fun r => ["Riots", "Protests"].contains r.event_type].reverse)
      [rowI, rowP] =
      ([rowI, rowP]).filter
        (activePred "Israel and Palestine" 2016 2024 ["Political violence"]
          ["Riots", "Protests"]) ∧
    filterAll "Israel and Palestine" 2016 2024 ["Political violence"]
        ["Riots", "Protests"] [rowI, rowP] =
      ([rowI, rowP]).filter
        (activePred "Israel and Palestine" 2016 2024 ["Political violence"]
          ["Riots", "Protests"]) :=
  filters_unordered_conjunction "Israel and Palestine" 2016 2024
    ["Political violence"] ["Riots", "Protests"] [rowI, rowP] _
    (List.reverse_perm _)

/-- Embedding of `src/main.py` line 64: `total_events = len(df)`. -/
def total_events (df : List Row) : Nat := df.length

/-- Embedding of `src/main.py` line 65: `df.event_type.nunique()`. -/
def unique_event_types (df : List Row) : Nat :=
  ((df.map (fun r => r.event_type)).dedup).length

/-- Embedding of `src/main.py` line 66: `df.disorder_type.nunique()`. -/
def unique_disorder_types (df : List Row) : Nat :=
  ((df.map (fun r => r.disorder_type)).dedup).length

/-- Embedding of `src/main.py` line 67:
`total_events / (hi - lo + 1) if total_events > 0 else 0`, with the
Python float division modelled in `Rat`. -/
def average_events_per_year (df : List Row) (lo hi : Int) : Rat :=
  if total_events df > 0 then
    (total_events df : Rat) / ((hi - lo + 1 : Int) : Rat)
  else 0

/-- Embedding of `src/main.py` line 68:
`df.fatalities.sum() if "fatalities" in df.columns else None`.  The set
of columns present in the loaded spreadsheet is passed explicitly. -/
def total_fatalities (cols : List String) (df : List Row) : Option Int :=
  if cols.contains "fatalities" then
    some ((df.map (fun r => r.fatalities)).sum)
  else none

/-- Embedding of pandas `Series.value_counts()` over a list of values:
one (value, count) pair per distinct value.  The descending-count
ordering pandas applies is irrelevant to every property proved here
(ties make the order underdetermined anyway), so pairs are listed in
dedup order. -/
def value_counts (l : List String) : List (String × Nat) :=
  (l.dedup).map (fun e => (e, l.count e))

/-- Scanning step of `idxmax`: keep the first index whose count is not
exceeded later. -/
def idxmaxGo (b : String) (bc : Nat) : List (String × Nat) → String
  | [] => b
  | (e, c) :: ps => if bc < c then idxmaxGo e c ps else idxmaxGo b bc ps

/-- Embedding of pandas `Series.idxmax()`: the first index attaining the
maximal value, `none` on an empty series. -/
def idxmax : List (String × Nat) → Option String
  | [] => none
  | (e, c) :: ps => some (idxmaxGo e c ps)

/-- Embedding of `src/main.py` line 69:
`df.event_type.value_counts().idxmax() if total_events > 0 else None`. -/
def most_frequent_event_type (df : List Row) : Option String :=
  if total_events df > 0 then
    idxmax (value_counts (df.map (fun r => r.event_type)))
  else none

/-- The distinct event types present in a table, per line 132 of the
source (`value_counts` index). -/
def eventTypes (df : List Row) : List String :=
  (df.map (fun r => r.event_type)).dedup

/-- Claim C5: the average is the total divided by the inclusive length
of the selected year range when there are events, is 0 on an empty
result regardless of the range, and the divisor is at least 1 for every
valid range selection. -/
theorem average_events_per_year_spec (df : List Row) (lo hi : Int)
    (h : lo ≤ hi) :
    (total_events df = 0 → average_events_per_year df lo hi = 0) ∧
    (0 < total_events df →
      average_events_per_year df lo hi =
        (total_events df : Rat) / ((hi - lo + 1 : Int) : Rat)) ∧
    1 ≤ hi - lo + 1 := by
  refine ⟨?_, ?_, by omega⟩
  · intro h0
    simp [average_events_per_year, h0]
  · intro h0
    unfold average_events_per_year
    rw [if_pos h0]

/-- Claim C5, witness: with two events over the range (2020, 2021) the
average is 2/2 and the divisor is positive. -/
theorem average_events_per_year_spec_witness :
    (0 < total_events [rowI, rowP] →
      average_events_per_year [rowI, rowP] 2020 2021 =
        (total_events [rowI, rowP] : Rat) / (((2021 : Int) - 2020 + 1 : Int) : Rat)) ∧
    (1 : Int) ≤ 2021 - 2020 + 1 :=
  ⟨(average_events_per_year_spec [rowI, rowP] 2020 2021 (by decide)).2.1,
   (average_events_per_year_spec [rowI, rowP] 2020 2021 (by decide)).2.2⟩

lemma idxmaxGo_spec (f : String → Nat) :
    ∀ (ps : List (String × Nat)) (b : String) (bc : Nat),
      bc = f b → (∀ p ∈ ps, p.2 = f p.1) →
      idxmaxGo b bc ps ∈ b :: ps.map Prod.fst ∧
      f b ≤ f (idxmaxGo b bc ps) ∧
      ∀ p ∈ ps, f p.1 ≤ f (idxmaxGo b bc ps) := by
  intro ps
  induction ps with
  | nil =>
    intro b bc hb hps
    simp [idxmaxGo]
  | cons p ps ih =>
    intro b bc hb hps
    obtain ⟨e, c⟩ := p
    have hc : c = f e := hps (e, c) (List.mem_cons_self _ _)
    have hps2 : ∀ q ∈ ps, q.2 = f q.1 :=
      fun q hq => hps q (List.mem_cons_of_mem _ hq)
    by_cases hlt : bc < c
    · have h := ih e c hc hps2
      rw [idxmaxGo, if_pos hlt]
      have hbe : f b ≤ f e := by omega
      refine ⟨List.mem_cons_of_mem b h.1, le_trans hbe h.2.1, ?_⟩
      intro q hq
      rcases List.mem_cons.mp hq with hq | hq
      · rw [hq]
        exact h.2.1
      · exact h.2.2 q hq
    · have h := ih b bc hb hps2
      rw [idxmaxGo, if_neg hlt]
      have hce : f e ≤ f b := by omega
      refine ⟨?_, h.2.1, ?_⟩
      · rcases List.mem_cons.mp h.1 with hm | hm
        · rw [hm]
          exact List.mem_cons_self _ _
        · exact List.mem_cons_of_mem _ (List.mem_cons_of_mem _ hm)
      · intro q hq
        rcases List.mem_cons.mp hq with hq | hq
        · rw [hq]
          exact le_trans hce h.2.1
        · exact h.2.2 q hq

lemma idxmax_value_counts_spec (l : List String) (h : l ≠ []) :
    ∃ e, idxmax (value_counts l) = some e ∧ e ∈ l.dedup ∧
      ∀ x ∈ l.dedup, l.count x ≤ l.count e := by
  have hvc : value_counts l = (l.dedup).map (fun e => (e, l.count e)) := rfl
  cases hd : l.dedup with
  | nil => exact absurd ((List.dedup_eq_nil l).mp hd) h
  | cons a as =>
    have hfst : ∀ q ∈ (as.map (fun e => (e, l.count e))),
        q.2 = l.count q.1 := by
      intro q hq
      obtain ⟨x, _, rfl⟩ := List.mem_map.mp hq
      rfl
    have hspec := idxmaxGo_spec (fun e => l.count e)
      (as.map (fun e => (e, l.count e))) a (l.count a) rfl hfst
    refine ⟨idxmaxGo a (l.count a) (as.map (fun e => (e, l.count e))),
      ?_, ?_, ?_⟩
    · rw [hvc, hd]
      rfl
    · have hmm : (as.map (fun e => (e, l.count e))).map Prod.fst = as := by
        rw [List.map_map]
        exact List.map_id as
      rw [hmm] at hspec
      exact hspec.1
    · intro x hx
      rcases List.mem_cons.mp hx with hx | hx
      · rw [hx]
        exact hspec.2.1
      · have := hspec.2.2 (x, l.count x)
          (List.mem_map.mpr ⟨x, hx, rfl⟩)
        exact this

/-- Claim C6: `most_frequent_event_type` is `none` exactly when
`total_events` is zero, and otherwise is an event type present in the
filtered table whose row count is maximal among the event types present
(its count in the mapped `event_type` column is the number of rows with
that event type). -/
theorem most_frequent_event_type_spec (df : List Row) :
    (most_frequent_event_type df = none ↔ total_events df = 0) ∧
    (total_events df ≠ 0 →
      ∃ e, most_frequent_event_type df = some e ∧ e ∈ eventTypes df ∧
        ∀ x ∈ eventTypes df,
          (df.map (fun r => r.event_type)).count x ≤
            (df.map (fun r => r.event_type)).count e) := by
  constructor
  · constructor
    · intro hn
      by_contra h0
      have hpos : total_events df > 0 := Nat.pos_of_ne_zero h0
      have hne : df.map (fun r => r.event_type) ≠ [] := by
        intro hc
        have : df = [] := List.map_eq_nil_iff.mp hc
        rw [this] at hpos
        exact absurd hpos (by decide)
      obtain ⟨e, he, _, _⟩ := idxmax_value_counts_spec _ hne
      rw [most_frequent_event_type, if_pos hpos, he] at hn
      exact Option.noConfusion hn
    · intro h0
      rw [most_frequent_event_type, if_neg (by omega)]
  · intro h0
    have hpos : total_events df > 0 := Nat.pos_of_ne_zero h0
    have hne : df.map (fun r => r.event_type) ≠ [] := by
      intro hc
      have : df = [] := List.map_eq_nil_iff.mp hc
      rw [this] at hpos
      exact absurd hpos (by decide)
    obtain ⟨e, he, hmem, hmax⟩ := idxmax_value_counts_spec _ hne
    refine ⟨e, ?_, hmem, hmax⟩
    rw [most_frequent_event_type, if_pos hpos, he]

/-- Claim C6, witness: on a concrete two-row table with distinct event
types the statistic is a present event type of maximal count. -/
theorem most_frequent_event_type_spec_witness :
    ∃ e, most_frequent_event_type [rowI, rowP] = some e ∧
      e ∈ eventTypes [rowI, rowP] ∧
      ∀ x ∈ eventTypes [rowI, rowP],
        ([rowI, rowP].map (fun r => r.event_type)).count x ≤
          ([rowI, rowP].map (fun r => r.event_type)).count e :=
  (most_frequent_event_type_spec [rowI, rowP]).2 (by decide)

/-- Embedding of the `groupby(key)[val].sum()` pattern of
`src/main.py` line 154: one (key, summed value) pair per distinct key of
the table. -/
def groupby_sum {β : Type} [DecidableEq β] (k : Row → β) (v : Row → Int)
    (df : List Row) : List (β × Int) :=
  ((df.map k).dedup).map
    (fun e => (e, ((df.filter (fun r => k r == e)).map v).sum))

/-- Embedding of `src/main.py` lines 152-157: the civilian-fatalities
bar-chart data is computed only when the `civilian_fatalities` column is
present, and is omitted (`none`) otherwise. -/
def civilian_fatalities_by_event (cols : List String) (df : List Row) :
    Option (List (String × Int)) :=
  if cols.contains "civilian_fatalities" then
    some (groupby_sum (fun r => r.event_type) (fun r => r.civilian_fatalities) df)
  else none

/-- Embedding of `src/main.py` line 125:
`df.groupby("year").size()` — the per-year incident counts feeding the
time-series chart. -/
def incident_count (df : List Row) : List (Int × Nat) :=
  ((df.map (fun r => r.year)).dedup).map
    (fun y => (y, (df.filter (fun r => r.year == y)).length))

lemma sum_map_add {β M : Type} [AddCommMonoid M] (g h : β → M)
    (es : List β) :
    (es.map (fun e => g e + h e)).sum = (es.map g).sum + (es.map h).sum := by
  induction es with
  | nil => simp
  | cons a es ih => simp [ih, add_assoc, add_left_comm]

lemma sum_map_ite {β M : Type} [AddCommMonoid M] [DecidableEq β]
    (b : β) (c : M) (es : List β) (hnd : es.Nodup) (hb : b ∈ es) :
    (es.map (fun e => if b = e then c else 0)).sum = c := by
  induction es with
  | nil => cases hb
  | cons a es ih =>
    have hna : a ∉ es := (List.nodup_cons.mp hnd).1
    have hnd2 : es.Nodup := (List.nodup_cons.mp hnd).2
    by_cases hba : b = a
    · subst hba
      rw [List.map_cons, List.sum_cons, if_pos rfl]
      have hz : (es.map (fun e => if b = e then c else 0)).sum = 0 := by
        apply List.sum_eq_zero
        intro x hx
        obtain ⟨e, he, rfl⟩ := List.mem_map.mp hx
        rw [if_neg]
        intro hbe
        exact hna (hbe ▸ he)
      rw [hz, add_zero]
    · rw [List.map_cons, List.sum_cons, if_neg hba, zero_add]
      exact ih hnd2 (List.mem_of_ne_of_mem hba hb)

/-- Summing a value over the fibers of a key function, fiber by fiber,
gives the total: the groups of a `groupby` partition the table. -/
lemma sum_fiberwise {α β M : Type} [DecidableEq β] [AddCommMonoid M]
    (k : α → β) (f : α → M) (es : List β) (hnd : es.Nodup) :
    ∀ t : List α, (∀ a ∈ t, k a ∈ es) →
      (es.map (fun e => ((t.filter (fun x => k x == e)).map f).sum)).sum =
        (t.map f).sum := by
  intro t
  induction t with
  | nil =>
    intro _
    simp only [List.filter_nil, List.map_nil, List.sum_nil]
    exact List.sum_eq_zero (by simp)
  | cons a t ih =>
    intro h
    have hka : k a ∈ es := h a (List.mem_cons_self _ _)
    have step : es.map
          (fun e => (((a :: t).filter (fun x => k x == e)).map f).sum) =
        es.map (fun e => (if k a = e then f a else 0) +
          ((t.filter (fun x => k x == e)).map f).sum) := by
      refine List.map_congr_left ?_
      intro e _
      by_cases hke : k a = e
      · rw [List.filter_cons, if_pos (by simp [hke]), List.map_cons,
          List.sum_cons, if_pos hke]
      · rw [List.filter_cons, if_neg (by simp [hke]), if_neg hke, zero_add]
    rw [step, sum_map_add, sum_map_ite (k a) (f a) es hnd hka,
      ih (fun x hx => h x (List.mem_cons_of_mem _ hx)),
      List.map_cons, List.sum_cons]

lemma sum_fiberwise_dedup {α β M : Type} [DecidableEq β] [AddCommMonoid M]
    (k : α → β) (f : α → M) (t : List α) :
    (((t.map k).dedup).map
        (fun e => ((t.filter (fun x => k x == e)).map f).sum)).sum =
      (t.map f).sum :=
  sum_fiberwise k f ((t.map k).dedup) (List.nodup_dedup _) t
    (fun a ha => List.mem_dedup.mpr (List.mem_map_of_mem k ha))

/-- Claim C8: when an optional column is absent the dependent output is
omitted rather than failing: without `civilian_fatalities` among the
columns the bar-chart aggregation is skipped (`none`), and without
`fatalities` the total is `none` instead of a sum. -/
theorem optional_columns_omitted (cols : List String) (df : List Row)
    (h1 : cols.contains "civilian_fatalities" = false)
    (h2 : cols.contains "fatalities" = false) :
    civilian_fatalities_by_event cols df = none ∧
    total_fatalities cols df = none := by
  constructor
  · rw [civilian_fatalities_by_event, if_neg (by simpa using h1)]
  · rw [total_fatalities, if_neg (by simpa using h2)]

/-- Claim C8, witness: with only the base columns present, both the
civilian-fatalities chart data and the fatalities total are omitted. -/
theorem optional_columns_omitted_witness :
    civilian_fatalities_by_event ["country", "year", "event_type"] [rowI, rowP] = none ∧
      total_fatalities ["country", "year", "event_type"] [rowI, rowP] = none :=
  optional_columns_omitted ["country", "year", "event_type"] [rowI, rowP]
    (by decide) (by decide)

/-- Claim C9: when the `fatalities` column is present, the sum over
event types of the per-event-type grouped fatalities equals
`total_fatalities` of the same filtered table. -/
theorem grouped_fatalities_partition (cols : List String) (df : List Row)
    (h : cols.contains "fatalities" = true) :
    total_fatalities cols df =
      some (((groupby_sum (fun r => r.event_type) (fun r => r.fatalities)
        df).map Prod.snd).sum) := by
  rw [total_fatalities, if_pos h]
  congr 1
  have hsnd : (groupby_sum (fun r => r.event_type) (fun r => r.fatalities)
        df).map Prod.snd =
      ((df.map (fun r => r.event_type)).dedup).map
        (fun e => ((df.filter (fun x => x.event_type == e)).map
          (fun r => r.fatalities)).sum) := by
    rw [groupby_sum, List.map_map]
    rfl
  rw [hsnd, sum_fiberwise_dedup (fun r => r.event_type) (fun r => r.fatalities) df]

/-- Claim C9, witness: on a concrete two-row table with the column
present, the grouped sums add up to the fatalities total. -/
theorem grouped_fatalities_partition_witness :
    List.contains ["year", "fatalities"] "fatalities" = true ∧
      total_fatalities ["year", "fatalities"] [rowI, rowP] =
        some (((groupby_sum (fun r => r.event_type) (fun r => r.fatalities)
          [rowI, rowP]).map Prod.snd).sum) :=
  ⟨by decide,
    grouped_fatalities_partition ["year", "fatalities"] [rowI, rowP] (by decide)⟩

lemma sum_map_one {α : Type} (l : List α) :
    (l.map (fun _ => (1 : Nat))).sum = l.length := by
  induction l with
  | nil => rfl
  | cons a l ih => simp [ih, Nat.add_comm]

/-- Claim C10: the per-year grouped incident counts feeding the
time-series chart partition the filtered table: their sum equals
`total_events`. -/
theorem incident_count_partition (df : List Row) :
    ((incident_count df).map Prod.snd).sum = total_events df := by
  have hsnd : (incident_count df).map Prod.snd =
      ((df.map (fun r => r.year)).dedup).map
        (fun y => (df.filter (fun r => r.year == y)).length) := by
    rw [incident_count, List.map_map]
    rfl
  rw [hsnd]
  have hlen : ((df.map (fun r => r.year)).dedup).map
        (fun y => (df.filter (fun r => r.year == y)).length) =
      ((df.map (fun r => r.year)).dedup).map
        (fun y => ((df.filter (fun r => r.year == y)).map
          (fun _ => (1 : Nat))).sum) := by
    refine List.map_congr_left ?_
    intro y _
    rw [sum_map_one]
  rw [hlen, sum_fiberwise_dedup (fun r => r.year) (fun _ => (1 : Nat)) df,
    sum_map_one]
  rfl

/-- Outcome of the external spreadsheet read (`pd.read_excel`, line 11):
it yields a table, or raises a missing-dependency error, or raises a
missing-file error. -/
inductive ReadOutcome where
  | ok (t : List Row)
  | importFailure
  | fileNotFound
deriving DecidableEq

/-- The two user-facing error kinds the loader distinguishes. -/
inductive ErrKind where
  | setupError
  | notFound
deriving DecidableEq

/-- Result of a render cycle through the loader: either the table, or a
halt after an error message of the given kind was shown (`st.error`
followed by `st.stop`). -/
inductive LoadResult where
  | loaded (t : List Row)
  | halted (k : ErrKind)
deriving DecidableEq

/-- Embedding of `src/main.py` lines 8-18 (`load_data`): the try/except
over the outcome of the spreadsheet read.  A successful read returns the
table as is; an import failure shows a setup error and halts; a missing
file shows a not-found error and halts. -/
def load_data : ReadOutcome → LoadResult
  | .ok t => .loaded t
  | .importFailure => .halted .setupError
  | .fileNotFound => .halted .notFound

/-- Claim C7: `load_data` returns the full table unmodified on success;
it maps a missing parsing dependency to a setup-error halt and a missing
data file to a not-found halt; and it never produces a partial result:
the only way to obtain a table is a successful read of that very table. -/
theorem load_data_spec (o : ReadOutcome) :
    (∀ t, o = .ok t → load_data o = .loaded t) ∧
    (o = .importFailure → load_data o = .halted .setupError) ∧
    (o = .fileNotFound → load_data o = .halted .notFound) ∧
    (∀ t, load_data o = .loaded t → o = .ok t) := by
  cases o with
  | ok t =>
    refine ⟨?_, ?_, ?_, ?_⟩
    · intro t2 h
      rw [h]
      rfl
    · intro h
      exact ReadOutcome.noConfusion h
    · intro h
      exact ReadOutcome.noConfusion h
    · intro t2 h
      have := LoadResult.loaded.inj h
      rw [this]
  | importFailure =>
    refine ⟨?_, fun _ => rfl, ?_, ?_⟩
    · intro t2 h
      exact ReadOutcome.noConfusion h
    · intro h
      exact ReadOutcome.noConfusion h
    · intro t2 h
      exact LoadResult.noConfusion h
  | fileNotFound =>
    refine ⟨?_, ?_, fun _ => rfl, ?_⟩
    · intro t2 h
      exact ReadOutcome.noConfusion h
    · intro h
      exact ReadOutcome.noConfusion h
    · intro t2 h
      exact LoadResult.noConfusion h

/-- Claim C7, witness: the loader halts with a setup error on a missing
dependency, applied at the concrete outcome. -/
theorem load_data_spec_witness :
    load_data ReadOutcome.importFailure = LoadResult.halted ErrKind.setupError :=
  (load_data_spec ReadOutcome.importFailure).2.1 rfl

/-- Insertion into a sorted list of years. -/
def insertSorted (x : Int) : List Int → List Int
  | [] => [x]
  | y :: ys => if x ≤ y then x :: y :: ys else y :: insertSorted x ys

/-- Ascending sort of a list of years (Python `sorted`). -/
def sortInts (l : List Int) : List Int := l.foldr insertSorted []

/-- Embedding of `src/main.py` line 52:
`years = sorted(df.year.unique())` over the country-filtered table. -/
def yearsSorted (df : List Row) : List Int :=
  sortInts ((df.map (fun r => r.year)).dedup)

/-- Embedding of `src/main.py` lines 53-54: the slider bounds
`int(years[0])`, `int(years[-1])`.  Indexing position 0 of an empty
`years` raises `IndexError` in Python, modelled as `none`. -/
def yearBounds (df : List Row) : Option (Int × Int) :=
  match yearsSorted df with
  | [] => none
  | y :: ys => some (y, ys.getLastD y)

/-- The summary statistics block of `src/main.py` lines 63-69. -/
structure Stats where
  total_events : Nat
  unique_event_types : Nat
  unique_disorder_types : Nat
  average_events_per_year : Rat
  total_fatalities : Option Int
  most_frequent_event_type : Option String
deriving DecidableEq

/-- Computation of every summary statistic from the filtered table and
the selected range (`src/main.py` lines 63-69). -/
def computeStats (cols : List String) (df : List Row) (lo hi : Int) : Stats :=
  { total_events := total_events df
    unique_event_types := unique_event_types df
    unique_disorder_types := unique_disorder_types df
    average_events_per_year := average_events_per_year df lo hi
    total_fatalities := total_fatalities cols df
    most_frequent_event_type := most_frequent_event_type df }

/-- The filtering-and-statistics stage of `main` downstream of a
successful load (`src/main.py` lines 47-69): country filter, slider
bounds from the sorted distinct years of the country-filtered table,
year filter, type filters, then the statistics.  `none` models the
`IndexError` of line 53 when the country-filtered table has no rows. -/
def statsPipeline (cols : List String) (df0 : List Row) (sel : String)
    (lo hi : Int) (ds es : List String) : Option Stats :=
  match yearBounds (countryFilter sel df0) with
  | none => none
  | some _ =>
    some (computeStats cols
      (typeFilter ds es (yearFilter lo hi (countryFilter sel df0))) lo hi)

lemma length_insertSorted (x : Int) (l : List Int) :
    (insertSorted x l).length = l.length + 1 := by
  induction l with
  | nil => rfl
  | cons y ys ih =>
    rw [insertSorted]
    by_cases h : x ≤ y
    · rw [if_pos h]
      rfl
    · rw [if_neg h, List.length_cons, ih, List.length_cons]

lemma length_sortInts (l : List Int) : (sortInts l).length = l.length := by
  induction l with
  | nil => rfl
  | cons x xs ih =>
    have h1 : sortInts (x :: xs) = insertSorted x (sortInts xs) := rfl
    rw [h1, length_insertSorted, ih, List.length_cons]

lemma yearBounds_isSome_of_ne_nil (df : List Row) (h : df ≠ []) :
    ∃ b, yearBounds df = some b := by
  have hd : (df.map (fun r => r.year)).dedup ≠ [] := by
    intro hc
    exact h (List.map_eq_nil_iff.mp ((List.dedup_eq_nil _).mp hc))
  have hs : yearsSorted df ≠ [] := by
    intro hc
    have := length_sortInts ((df.map (fun r => r.year)).dedup)
    rw [yearsSorted] at hc
    rw [hc] at this
    exact hd (List.eq_nil_of_length_eq_zero this.symm)
  rw [yearBounds]
  cases hy : yearsSorted df with
  | nil => exact absurd hy hs
  | cons y ys => exact ⟨(y, ys.getLastD y), rfl⟩

lemma typeFilter_empty_sel (ds es : List String) (l : List Row)
    (h : ds = [] ∨ es = []) : typeFilter ds es l = [] := by
  rcases h with h | h <;> rw [h] <;> simp [typeFilter]

/-- Claim C2, counterexample: the pipeline is not total after a
successful load.  On a loaded table holding a single Israel row,
selecting the country Palestine makes the country-filtered table empty,
and the slider-bounds derivation of line 53 (indexing
`sorted(df.year.unique())` at 0) fails: the stage aborts (`none`)
instead of reporting zero statistics. -/
theorem statsPipeline_not_total :
    statsPipeline ["fatalities"] [rowI] "Palestine" 2016 2024
      ["Political violence"] ["Riots"] = none := by
  rfl

/-- Claim C2 as amended: whenever the country-filtered table is
nonempty — so the slider-bounds derivation of line 53 has a year to
index — the filtering and statistics stage is a total function: it
produces a statistics record for every year range and every (possibly
empty) disorder-type and event-type selection, and an empty type
selection yields the empty result set with zero events, average 0 and no
most-frequent event type. -/
theorem statsPipeline_total_of_country_nonempty (cols : List String)
    (df0 : List Row) (sel : String) (lo hi : Int) (ds es : List String)
    (h : countryFilter sel df0 ≠ []) :
    (∃ s, statsPipeline cols df0 sel lo hi ds es = some s) ∧
    (∀ s, statsPipeline cols df0 sel lo hi ds es = some s →
      (ds = [] ∨ es = []) →
        s.total_events = 0 ∧ s.most_frequent_event_type = none ∧
          s.average_events_per_year = 0) := by
  obtain ⟨b, hb⟩ := yearBounds_isSome_of_ne_nil _ h
  constructor
  · refine ⟨computeStats cols
      (typeFilter ds es (yearFilter lo hi (countryFilter sel df0))) lo hi, ?_⟩
    rw [statsPipeline, hb]
  · intro s hs hempty
    rw [statsPipeline, hb] at hs
    have hs2 := Option.some.inj hs
    rw [typeFilter_empty_sel ds es _ hempty] at hs2
    rw [← hs2]
    exact ⟨rfl, rfl, rfl⟩

/-- Claim C2 (amended), witness: with both rows loaded and Israel
selected, the country-filtered table is nonempty and the stage with an
empty event-type selection returns the zero statistics record. -/
theorem statsPipeline_total_of_country_nonempty_witness :
    (∃ s, statsPipeline ["fatalities"] [rowI, rowP] "Israel" 2016 2024
        ["Political violence"] [] = some s) ∧
    (∀ s, statsPipeline ["fatalities"] [rowI, rowP] "Israel" 2016 2024
        ["Political violence"] [] = some s →
      (["Political violence"] = ([] : List String) ∨ ([] : List String) = []) →
        s.total_events = 0 ∧ s.most_frequent_event_type = none ∧
          s.average_events_per_year = 0) :=
  statsPipeline_total_of_country_nonempty ["fatalities"] [rowI, rowP]
    "Israel" 2016 2024 ["Political violence"] [] (by decide)
